import Mathlib

/-!
Verification of the conversation-memory, prompt-cache and session-registry
layer of the weather-agent service.

The definitions below are a shallow embedding of the Python sources:
  memory_handler.py  (MongoDBConversationMemory)
  prompt_cache.py    (PromptCache)
  app.py             (FastAPI endpoints: chat_agent, get_chat_history,
                      delete_user, and the get_agent session registry)

The MongoDB-backed message store (library class MongoDBChatMessageHistory)
is modelled as an append-only list of messages per session, which is its
documented behaviour: add_user_message / add_ai_message append one document,
`messages` reads all documents for the session in insertion order, `clear`
deletes them.  External effects (the language model, hub.pull) are passed
in as explicit oracle arguments.
-/

namespace WeatherAgent

/-- Role of a stored chat message (`msg.type` is "human" or "ai"). -/
inductive Role where
  | human
  | ai
deriving DecidableEq, Repr

/-- A stored chat message: role plus literal text content. -/
structure Message where
  role : Role
  content : String
deriving DecidableEq, Repr

/-- Embedding of `MongoDBConversationMemory` (memory_handler.py).  The field
`k` is the window parameter handed to ConversationBufferWindowMemory in
`__init__`; `messages` is the per-session message store backing
`self.message_history`. -/
structure MongoDBConversationMemory where
  user_id : String
  k : Nat
  messages : List Message
deriving DecidableEq, Repr

/-- A freshly initialized memory: the Mongo store for a new session is empty. -/
def MongoDBConversationMemory.init (user_id : String) (k : Nat) :
    MongoDBConversationMemory :=
  { user_id := user_id, k := k, messages := [] }

/-- Embedding of `MongoDBConversationMemory.get_chat_history`: it returns
`self.message_history.messages`, the full stored message list. -/
def MongoDBConversationMemory.get_chat_history
    (m : MongoDBConversationMemory) : List Message :=
  m.messages

/-- Embedding of `MongoDBConversationMemory.add_user_message`: appends one
human message to the session store. -/
def MongoDBConversationMemory.add_user_message
    (m : MongoDBConversationMemory) (message : String) :
    MongoDBConversationMemory :=
  { m with messages := m.messages ++ [{ role := Role.human, content := message }] }

/-- Embedding of `MongoDBConversationMemory.add_ai_message`: appends one
assistant message to the session store. -/
def MongoDBConversationMemory.add_ai_message
    (m : MongoDBConversationMemory) (message : String) :
    MongoDBConversationMemory :=
  { m with messages := m.messages ++ [{ role := Role.ai, content := message }] }

/-- Embedding of `MongoDBConversationMemory.clear_history`: deletes all
messages of the session. -/
def MongoDBConversationMemory.clear_history
    (m : MongoDBConversationMemory) : MongoDBConversationMemory :=
  { m with messages := [] }

/-- The exchange append performed after each successful agent invocation:
`RunnableWithMessageHistory` (wired by `create_runnable_with_history` through
`_get_session_history`) writes the input message and then the output message
to the session store, i.e. `add_user_message` followed by `add_ai_message`. -/
def MongoDBConversationMemory.append_exchange
    (m : MongoDBConversationMemory) (user_text assistant_text : String) :
    MongoDBConversationMemory :=
  (m.add_user_message user_text).add_ai_message assistant_text

/-- The messages an exchange list denotes, human/assistant interleaved. -/
def exchangesToMessages (exchanges : List (String × String)) : List Message :=
  exchanges.flatMap fun e =>
    [{ role := Role.human, content := e.1 }, { role := Role.ai, content := e.2 }]

/-- Concrete memory for the C1 counterexample: window parameter 1, three
stored messages. -/
def c1CexMemory : MongoDBConversationMemory :=
  { user_id := "alice", k := 1,
    messages :=
      [{ role := Role.human, content := "hi" },
       { role := Role.ai, content := "hello" },
       { role := Role.human, content := "weather in London" }] }

/-- C1 counterexample: with three stored messages and window parameter
K = 1, `get_chat_history` returns all 3 messages, not `min(3, 2*1) = 2`
as the claim states — the retrieval is not windowed. -/
theorem get_chat_history_window_counterexample :
    (c1CexMemory.get_chat_history).length = 3 ∧
      (c1CexMemory.get_chat_history).length ≠
        min c1CexMemory.messages.length (2 * c1CexMemory.k) := by
  decide

/-- C1 (amended): `get_chat_history` returns all N stored messages in their
original insertion order, independent of the window parameter K.  For a
session built by appending any sequence of exchanges to a fresh store, it
returns exactly the full interleaved sequence, of length 2·(number of
exchanges), for every K. -/
theorem get_chat_history_returns_all_messages (user_id : String) (k : Nat)
    (exchanges : List (String × String)) :
    (exchanges.foldl (fun m e => m.append_exchange e.1 e.2)
        (MongoDBConversationMemory.init user_id k)).get_chat_history
      = exchangesToMessages exchanges ∧
    (exchanges.foldl (fun m e => m.append_exchange e.1 e.2)
        (MongoDBConversationMemory.init user_id k)).get_chat_history.length
      = 2 * exchanges.length := by
  have general :
      ∀ (exchanges : List (String × String)) (m : MongoDBConversationMemory),
        (exchanges.foldl (fun m e => m.append_exchange e.1 e.2) m).messages
          = m.messages ++ exchangesToMessages exchanges := by
    intro exchanges
    induction exchanges with
    | nil => intro m; simp [exchangesToMessages]
    | cons e rest ih =>
      intro m
      simp only [List.foldl_cons, ih, exchangesToMessages, List.flatMap_cons]
      simp [MongoDBConversationMemory.append_exchange,
        MongoDBConversationMemory.add_user_message,
        MongoDBConversationMemory.add_ai_message, exchangesToMessages]
  have hmain :
      (exchanges.foldl (fun m e => m.append_exchange e.1 e.2)
          (MongoDBConversationMemory.init user_id k)).get_chat_history
        = exchangesToMessages exchanges := by
    simpa [MongoDBConversationMemory.get_chat_history,
      MongoDBConversationMemory.init] using
        general exchanges (MongoDBConversationMemory.init user_id k)
  refine ⟨hmain, ?_⟩
  rw [hmain]
  have : ∀ (es : List (String × String)),
      (exchangesToMessages es).length = 2 * es.length := by
    intro es
    induction es with
    | nil => simp [exchangesToMessages]
    | cons e rest ih =>
      simp [exchangesToMessages, List.flatMap_cons] at ih ⊢
      omega
  exact this exchanges

/-- C4: appending an exchange adds exactly two messages to the store — the
human message with literally the user text, then the assistant message with
literally the assistant text, adjacent and in that order — and every
previously stored message is preserved (the old store is a prefix of the
new one). -/
theorem append_exchange_appends_two_messages
    (m : MongoDBConversationMemory) (user_text assistant_text : String) :
    (m.append_exchange user_text assistant_text).messages
      = m.messages ++
          [{ role := Role.human, content := user_text },
           { role := Role.ai, content := assistant_text }] ∧
    m.messages <+: (m.append_exchange user_text assistant_text).messages := by
  have heq : (m.append_exchange user_text assistant_text).messages
      = m.messages ++
          [{ role := Role.human, content := user_text },
           { role := Role.ai, content := assistant_text }] := by
    simp [MongoDBConversationMemory.append_exchange,
      MongoDBConversationMemory.add_user_message,
      MongoDBConversationMemory.add_ai_message]
  exact ⟨heq, heq ▸ List.prefix_append _ _⟩

/-- Result of the POST /api/chat endpoint: either a QueryResponse body or an
HTTPException with a status code and detail string. -/
inductive ChatResult where
  | ok (response : String)
  | httpError (statusCode : Nat) (detail : String)
deriving DecidableEq, Repr

/-- Embedding of one `agent.invoke({"input": q}, config)` call on the
history-wrapped agent executor.  The external agent run is an oracle taking
the input text and the session history; `RunnableWithMessageHistory` appends
the (input, output) exchange to the session store after a successful run and
propagates the exception on a failed one. -/
def invoke_with_history (agent : String → List Message → Except String String)
    (m : MongoDBConversationMemory) (query : String) :
    Except String (String × MongoDBConversationMemory) :=
  match agent query m.get_chat_history with
  | Except.ok output => Except.ok (output, m.append_exchange query output)
  | Except.error e => Except.error e

/-- Embedding of the `chat_agent` endpoint body (app.py): it invokes the
user's cached agent on `request.query` inside a try block with no
validation of the query text; a successful invocation's output is returned
as the response, any exception is mapped to a 500 error.  Returns the
result together with the session memory after the call. -/
def chat_agent (agent : String → List Message → Except String String)
    (m : MongoDBConversationMemory) (query : String) :
    ChatResult × MongoDBConversationMemory :=
  match invoke_with_history agent m query with
  | Except.ok (output, m2) => (ChatResult.ok output, m2)
  | Except.error e =>
      (ChatResult.httpError 500 ("Error processing query: " ++ e), m)

/-- A stub agent run used in the C2 counterexample: it succeeds on every
input, in particular on the empty query. -/
def c2StubAgent : String → List Message → Except String String :=
  fun _ _ => Except.ok "stub response"

/-- C2 counterexample: on the empty query, `chat_agent` does not reject with
an Invalid-Input error — the agent is invoked (its output is returned as a
success response) and the exchange is appended to the conversation history
(two new messages, the first being the empty human message). -/
theorem chat_agent_empty_query_counterexample :
    (chat_agent c2StubAgent (MongoDBConversationMemory.init "alice" 5) "").1
      = ChatResult.ok "stub response" ∧
    (chat_agent c2StubAgent (MongoDBConversationMemory.init "alice" 5) "").2.messages
      = [{ role := Role.human, content := "" },
         { role := Role.ai, content := "stub response" }] := by
  decide

/-- C2 (amended): `chat_agent` performs no emptiness validation.  Every
query text — the empty string and whitespace-only strings included — is
forwarded to the agent: when the agent run succeeds its output is returned
and exactly the (query, output) exchange is appended to the history, and
when it fails a 500 query-processing error is returned with the history
unchanged; no Invalid-Input rejection exists. -/
theorem chat_agent_no_empty_query_validation
    (agent : String → List Message → Except String String)
    (m : MongoDBConversationMemory) (query : String) :
    (∀ output, agent query m.get_chat_history = Except.ok output →
        chat_agent agent m query
          = (ChatResult.ok output, m.append_exchange query output)) ∧
    (∀ e, agent query m.get_chat_history = Except.error e →
        chat_agent agent m query
          = (ChatResult.httpError 500 ("Error processing query: " ++ e), m)) := by
  constructor
  · intro output h
    simp [chat_agent, invoke_with_history, h]
  · intro e h
    simp [chat_agent, invoke_with_history, h]

/-- Witness for the amended C2 theorem at a concrete input: the stub agent
succeeds on the empty query, so the endpoint returns its output and appends
the exchange. -/
theorem chat_agent_no_empty_query_validation_witness :
    chat_agent c2StubAgent (MongoDBConversationMemory.init "bob" 5) ""
      = (ChatResult.ok "stub response",
         (MongoDBConversationMemory.init "bob" 5).append_exchange "" "stub response") :=
  (chat_agent_no_empty_query_validation c2StubAgent
      (MongoDBConversationMemory.init "bob" 5) "").1 "stub response" (by rfl)

/-- Lookup in a string-keyed association list, modelling a Python dict read
(first matching key; under the no-duplicate-keys invariant, the unique one). -/
def lookupEntry {α : Type} : List (String × α) → String → Option α
  | [], _ => none
  | kv :: rest, key => if kv.1 = key then some kv.2 else lookupEntry rest key

/-- Assignment `d[key] = v` on a Python dict: replaces the value of an
existing key in place, otherwise appends a new entry. -/
def insertEntry {α : Type} : List (String × α) → String → α → List (String × α)
  | [], key, v => [(key, v)]
  | kv :: rest, key, v =>
      if kv.1 = key then (key, v) :: rest else kv :: insertEntry rest key v

/-- Deletion `del d[key]` on a Python dict: removes the entry with that key
(no-op when absent). -/
def eraseEntry {α : Type} : List (String × α) → String → List (String × α)
  | [], _ => []
  | kv :: rest, key =>
      if kv.1 = key then eraseEntry rest key else kv :: eraseEntry rest key

/-- Keys of the cache are pairwise distinct (what a Python dict guarantees). -/
abbrev KeysNodup {α : Type} (cache : List (String × α)) : Prop :=
  (cache.map Prod.fst).Nodup

/-- Embedding of `get_agent` (app.py): if the user has no cache entry,
construct a fresh (agent, memory) pair — `create_weather_agent` is the
construction oracle, which may raise — store it, and return the stored
entry; otherwise return the existing entry.  A raised construction error
propagates before the assignment runs, so the cache is unchanged. -/
def get_agent {α : Type} (create : Except String α)
    (cache : List (String × α)) (user_id : String) :
    Except String α × List (String × α) :=
  match lookupEntry cache user_id with
  | some entry => (Except.ok entry, cache)
  | none =>
      match create with
      | Except.ok entry => (Except.ok entry, insertEntry cache user_id entry)
      | Except.error e => (Except.error e, cache)

/-- An operation on the agent session registry: a get-or-create (with the
outcome of its construction oracle) or an eviction (`del agent_cache[uid]`,
as performed by the delete-history and delete-user endpoints). -/
inductive RegistryOp (α : Type) where
  | getOrCreate (user_id : String) (create : Except String α)
  | evict (user_id : String)

/-- State transition of the registry cache under one operation. -/
def applyRegistryOp {α : Type} (cache : List (String × α)) :
    RegistryOp α → List (String × α)
  | RegistryOp.getOrCreate uid create => (get_agent create cache uid).2
  | RegistryOp.evict uid => eraseEntry cache uid

/-- State of the registry cache after a sequence of operations. -/
def applyRegistryOps {α : Type} (ops : List (RegistryOp α))
    (cache : List (String × α)) : List (String × α) :=
  ops.foldl applyRegistryOp cache

theorem keys_insertEntry {α : Type} (cache : List (String × α))
    (key : String) (v : α) :
    (insertEntry cache key v).map Prod.fst =
      if key ∈ cache.map Prod.fst then cache.map Prod.fst
      else cache.map Prod.fst ++ [key] := by
  induction cache with
  | nil => simp [insertEntry]
  | cons kv rest ih =>
    by_cases hk : kv.1 = key
    · simp [insertEntry, hk]
    · by_cases hmem : key ∈ rest.map Prod.fst
      · simp [insertEntry, hk, ih, hmem, Ne.symm hk]
      · simp [insertEntry, hk, ih, hmem, Ne.symm hk]

theorem keysNodup_insertEntry {α : Type} (cache : List (String × α))
    (key : String) (v : α) (h : KeysNodup cache) :
    KeysNodup (insertEntry cache key v) := by
  rw [KeysNodup, keys_insertEntry cache key v]
  by_cases hmem : key ∈ cache.map Prod.fst
  · rwa [if_pos hmem]
  · rw [if_neg hmem]
    simp only [List.nodup_append, List.nodup_cons, List.not_mem_nil,
      not_false_iff, List.nodup_nil, and_true, true_and]
    exact ⟨h, fun a ha => by
      simp only [List.mem_singleton]
      intro heq
      exact hmem (heq ▸ ha)⟩

theorem keys_eraseEntry_sublist {α : Type} (cache : List (String × α))
    (key : String) :
    ((eraseEntry cache key).map Prod.fst).Sublist (cache.map Prod.fst) := by
  induction cache with
  | nil => simp [eraseEntry]
  | cons kv rest ih =>
    by_cases hk : kv.1 = key
    · simp only [eraseEntry, hk, if_pos rfl, List.map_cons]
      exact ih.trans (List.sublist_cons_self _ _)
    · simp only [eraseEntry, hk, if_neg hk, List.map_cons]
      exact ih.cons₂ _

theorem keysNodup_eraseEntry {α : Type} (cache : List (String × α))
    (key : String) (h : KeysNodup cache) : KeysNodup (eraseEntry cache key) :=
  List.Nodup.sublist (keys_eraseEntry_sublist cache key) h

/-- C5: the agent session registry keeps at most one cache entry per session
identity as an invariant of every operation sequence; `get_agent` returns
the existing entry unchanged when one is cached; and when construction
fails, the error propagates with no partial entry stored. -/
theorem agent_registry_single_entry_invariant {α : Type}
    (ops : List (RegistryOp α)) (cache : List (String × α))
    (h : KeysNodup cache) :
    KeysNodup (applyRegistryOps ops cache) ∧
    (∀ user_id entry create, lookupEntry cache user_id = some entry →
        get_agent create cache user_id = (Except.ok entry, cache)) ∧
    (∀ user_id e, lookupEntry cache user_id = none →
        get_agent (Except.error e : Except String α) cache user_id
          = (Except.error e, cache)) := by
  refine ⟨?_, ?_, ?_⟩
  · induction ops generalizing cache with
    | nil => simpa [applyRegistryOps]
    | cons op rest ih =>
      simp only [applyRegistryOps, List.foldl_cons]
      apply ih
      cases op with
      | getOrCreate uid create =>
        simp only [applyRegistryOp, get_agent]
        cases hl : lookupEntry cache uid with
        | some entry => simpa
        | none =>
          cases create with
          | ok entry => simpa using keysNodup_insertEntry cache uid entry h
          | error e => simpa
      | evict uid =>
        simpa [applyRegistryOp] using keysNodup_eraseEntry cache uid h
  · intro user_id entry create hl
    simp [get_agent, hl]
  · intro user_id e hl
    simp [get_agent, hl]

/-- Witness for the C5 theorem at a concrete registry state and operation
sequence: starting from a one-entry cache with distinct keys, a get-or-create
for a new user, a failing get-or-create, and an eviction preserve the
single-entry-per-key invariant; the cached entry for "bob" is returned as is;
and a failing construction for an uncached user propagates the error with
the cache unchanged. -/
theorem agent_registry_single_entry_invariant_witness :
    KeysNodup (applyRegistryOps
        [RegistryOp.getOrCreate "alice" (Except.ok 1),
         RegistryOp.getOrCreate "carol" (Except.error "boom"),
         RegistryOp.evict "bob"] [("bob", (2 : Nat))]) ∧
    get_agent (Except.ok 7) [("bob", (2 : Nat))] "bob"
      = (Except.ok 2, [("bob", 2)]) ∧
    get_agent (Except.error "boom" : Except String Nat) [("bob", 2)] "alice"
      = (Except.error "boom", [("bob", 2)]) := by
  have h := agent_registry_single_entry_invariant
      [RegistryOp.getOrCreate "alice" (Except.ok 1),
       RegistryOp.getOrCreate "carol" (Except.error "boom"),
       RegistryOp.evict "bob"] [("bob", (2 : Nat))] (by decide)
  exact ⟨h.1, h.2.1 "bob" 2 (Except.ok 7) (by decide),
    h.2.2 "alice" "boom" (by decide)⟩

/-- Number of (possibly overlapping) occurrences of a character pattern in a
character list; `0 <` of it is Python's substring containment test. -/
def substrCount (pat : List Char) : List Char → Nat
  | [] => 0
  | c :: rest =>
      (if pat.isPrefixOf (c :: rest) then 1 else 0) + substrCount pat rest

/-- Python's `pat in s` substring test. -/
def containsSub (pat s : String) : Bool :=
  decide (0 < substrCount pat.data s.data)

/-- Fuel-bounded left-to-right non-overlapping replacement over characters;
the fuel is an upper bound on the number of steps (one per consumed
character suffices). -/
def replaceAllFuel (pat repl : List Char) : Nat → List Char → List Char
  | _, [] => []
  | 0, s => s
  | Nat.succ fuel, c :: rest =>
      if !pat.isEmpty && pat.isPrefixOf (c :: rest) then
        repl ++ replaceAllFuel pat repl fuel ((c :: rest).drop pat.length)
      else c :: replaceAllFuel pat repl fuel rest

/-- Python's `s.replace(pat, repl)`: replace every occurrence, scanning left
to right without overlap. -/
def pyReplace (s pat repl : String) : String :=
  { data := replaceAllFuel pat.data repl.data s.data.length s.data }

/-- A message segment of a chat prompt template: the three string-prompt
message kinds (which carry a `.prompt.template` string) and the
MessagesPlaceholder kind (which carries only a variable name and has no
`.prompt.template`). -/
inductive MsgSeg where
  | system (template : String)
  | human (template : String)
  | ai (template : String)
  | placeholder (variable_name : String)
deriving DecidableEq, Repr

/-- The `.prompt.template` string of a segment, when the segment has one
(`hasattr(msg, "prompt") and hasattr(msg.prompt, "template")`). -/
def MsgSeg.template? : MsgSeg → Option String
  | MsgSeg.system t => some t
  | MsgSeg.human t => some t
  | MsgSeg.ai t => some t
  | MsgSeg.placeholder _ => none

/-- The detection `get_prompt` uses for a required placeholder: the segment
has a template string and the token occurs in it as a substring.
MessagesPlaceholder segments never satisfy it. -/
def segMentions (pat : String) (s : MsgSeg) : Bool :=
  match s.template? with
  | some t => containsSub pat t
  | none => false

/-- Whether the segment's class name contains "Human" or "User" (true
exactly for the human/user message kind; MessagesPlaceholder,
SystemMessagePromptTemplate and AIMessagePromptTemplate do not match). -/
def MsgSeg.isHumanClass : MsgSeg → Bool
  | MsgSeg.human _ => true
  | _ => false

/-- Literal token `get_prompt` substitutes with the current date. -/
def todayToken : String := "{TODAY_DATE}"

/-- Literal token whose presence in a template string counts as the history
placeholder. -/
def historyToken : String := "{chat_history}"

/-- Literal token whose presence in a template string counts as the
working-memory (scratchpad) placeholder. -/
def scratchpadToken : String := "{agent_scratchpad}"

/-- Literal token for the user-input placeholder. -/
def inputToken : String := "{input}"

/-- The date-substitution step of `get_prompt`: on segments with a template
string containing the date token, rebuild the segment with the token
replaced by today's date; all other segments pass through unchanged. -/
def substDate (today_date : String) : MsgSeg → MsgSeg
  | MsgSeg.system t =>
      if containsSub todayToken t then MsgSeg.system (pyReplace t todayToken today_date)
      else MsgSeg.system t
  | MsgSeg.human t =>
      if containsSub todayToken t then MsgSeg.human (pyReplace t todayToken today_date)
      else MsgSeg.human t
  | MsgSeg.ai t =>
      if containsSub todayToken t then MsgSeg.ai (pyReplace t todayToken today_date)
      else MsgSeg.ai t
  | MsgSeg.placeholder v => MsgSeg.placeholder v

/-- The insertion loop of `get_prompt`: walk the messages, and at the first
segment whose class matches Human/User, insert a chat-history
MessagesPlaceholder right before it and stop; when no such segment exists
the list is unchanged. -/
def insertBeforeFirstHuman : List MsgSeg → List MsgSeg
  | [] => []
  | s :: rest =>
      if s.isHumanClass then MsgSeg.placeholder "chat_history" :: s :: rest
      else s :: insertBeforeFirstHuman rest

/-- Index of the first Human/User segment, if any. -/
def firstHumanIdx : List MsgSeg → Option Nat
  | [] => none
  | s :: rest =>
      if s.isHumanClass then some 0 else (firstHumanIdx rest).map (· + 1)

/-- The message-list transformation of `get_prompt` for a chat template:
date substitution on every segment, then — when either required token is
undetected among the original segments' template strings — the
chat-history insertion (only when the history token is undetected) and the
scratchpad append (only when the scratchpad token is undetected). -/
def repairedMessages (today_date : String) (msgs : List MsgSeg) : List MsgSeg :=
  let updated := msgs.map (substDate today_date)
  let has_agent_scratchpad := msgs.any (segMentions scratchpadToken)
  let has_chat_history := msgs.any (segMentions historyToken)
  if !has_agent_scratchpad || !has_chat_history then
    let afterInsert :=
      if !has_chat_history then insertBeforeFirstHuman updated else updated
    if !has_agent_scratchpad then
      afterInsert ++ [MsgSeg.placeholder "agent_scratchpad"]
    else afterInsert
  else updated

/-- The input-variables adjustment of `get_prompt`: append
"agent_scratchpad" and "chat_history" when absent, and alias "question" to
"input" by appending "input" when the former is declared and the latter is
not. -/
def fixedInputVariables (vars : List String) : List String :=
  let v1 := if vars.contains "agent_scratchpad" then vars
            else vars ++ ["agent_scratchpad"]
  let v2 := if v1.contains "chat_history" then v1 else v1 ++ ["chat_history"]
  if v2.contains "question" && !(v2.contains "input") then v2 ++ ["input"]
  else v2

/-- Embedding of a LangChain ChatPromptTemplate: its ordered message
segments and declared input variables. -/
structure ChatPromptTemplate where
  messages : List MsgSeg
  input_variables : List String
deriving DecidableEq, Repr

/-- The PromptCache `_prompts` dict: template ID to cached template, where a
failed pull is recorded as a null (`none`) entry. -/
abbrev PromptsState := List (String × Option ChatPromptTemplate)

/-- Embedding of `PromptCache.get_prompt`: read the cached entry (absent and
null both yield None); for a cached chat template, build the repaired
message list and adjusted input variables, and return them as a freshly
constructed template when the repaired list is nonempty, the cached
original otherwise. -/
def get_prompt (today_date : String) (prompts : PromptsState)
    (prompt_id : String) : Option ChatPromptTemplate :=
  match lookupEntry prompts prompt_id with
  | none => none
  | some none => none
  | some (some prompt) =>
      let updated_messages := repairedMessages today_date prompt.messages
      if updated_messages.isEmpty then some prompt
      else some { messages := updated_messages,
                  input_variables := fixedInputVariables prompt.input_variables }

/-- Stateful view of one `get_prompt` call: the method body only reads
`self._prompts` (there is no write to the dict anywhere in it), so the
resulting cache state is the input state. -/
def get_prompt_state (today_date : String) (prompts : PromptsState)
    (prompt_id : String) : Option ChatPromptTemplate × PromptsState :=
  (get_prompt today_date prompts prompt_id, prompts)

/-- Cache state after a sequence of `get_prompt` calls. -/
def runGets (today_date : String) (prompt_ids : List String)
    (prompts : PromptsState) : PromptsState :=
  prompt_ids.foldl (fun st pid => (get_prompt_state today_date st pid).2) prompts

/-- Embedding of `PromptCache.update_prompt`: evaluate `hub.pull(prompt_id)`
(the oracle argument); on success store the pulled template and return True,
on a raised error return False with the dict untouched (the assignment never
runs). -/
def update_prompt (pull : Except String ChatPromptTemplate)
    (prompts : PromptsState) (prompt_id : String) : Bool × PromptsState :=
  match pull with
  | Except.ok p => (true, insertEntry prompts prompt_id (some p))
  | Except.error _ => (false, prompts)

/-- The system text of the hardcoded default weather prompt
(`create_default_weather_prompt`), an f-string interpolating today's date. -/
def defaultSystemText (today_date : String) : String :=
  "Hey there! ☀️ You\x27re a friendly and helpful weather assistant with access to real-time weather data. \n\n" ++
  "            📅 Today is **" ++ today_date ++ "**.\n\n" ++
  "            🌍 **Your job is simple:** Help users with their weather-related questions using accurate, up-to-date data! \n\n" ++
  "            ✅ **How you can help:**\n" ++
  "            - If the user asks about **today\x27s weather**, use `get_current_weather` 🌤️.\n" ++
  "            - If they ask about the **forecast** (tomorrow, next week, specific dates), use `get_weather_forecast` 📅.\n" ++
  "            - If the request isn\x27t clear, just ask for more details in a friendly way.\n" ++
  "            - Respond in **markdown format** and use **emojis** to make it engaging! 😊\n" ++
  "            - Match the user\x27s language and tone. If they\x27re casual, be casual. If they\x27re formal, be formal.\n" ++
  "            - If the city isn\x27t in the database, kindly let them know.\n\n" ++
  "            ❌ **Things you shouldn\x27t do:**\n" ++
  "            - Never make up weather information.\n" ++
  "            - Stay focused on weather-related questions only.\n\n" ++
  "            --- \n" ++
  "            ✨ **Example Conversations:**\n\n" ++
  "            **User:** \"Hey! What\x27s the weather like in Paris today?\"  \n" ++
  "            **You:** \"🌤️ The current temperature in **Paris** is 18°C with clear skies. Enjoy your day! ☀️\"  \n\n" ++
  "            **User:** \"Will it rain in New York tomorrow?\"  \n" ++
  "            **You:** \"🌧️ **Tomorrow\x27s forecast for New York:** Expect light showers in the afternoon with a high of 22°C.\"  \n\n" ++
  "            **User:** \"Can you tell me the weather for London next Monday?\"  \n" ++
  "            **You:** \"📅 **London\x27s forecast for Monday:** A mix of sun and clouds with a high of 19°C and a slight chance of rain. 🌥️\"  \n\n" ++
  "            **User:** \"Weather in Mars?\"  \n" ++
  "            **You:** \"Hmm... I can only check Earth\x27s weather! 🌍 If you\x27re asking about a specific city, let me know!\"  \n" ++
  "            "

/-- Embedding of `PromptCache.create_default_weather_prompt`: the hardcoded
fallback template — system text, then a chat-history MessagesPlaceholder,
then the user-input message, then the agent-scratchpad MessagesPlaceholder
last. -/
def create_default_weather_prompt (today_date : String) : ChatPromptTemplate :=
  { messages :=
      [MsgSeg.system (defaultSystemText today_date),
       MsgSeg.placeholder "chat_history",
       MsgSeg.human "{input}",
       MsgSeg.placeholder "agent_scratchpad"],
    input_variables := ["chat_history", "input", "agent_scratchpad"] }

/-- Occurrences of a required placeholder in a message list, counting both
MessagesPlaceholder segments bound to the variable and literal token
occurrences inside template strings. -/
def MsgSeg.tokenCount (tok v : String) : MsgSeg → Nat
  | MsgSeg.placeholder name => if name = v then 1 else 0
  | MsgSeg.system t => substrCount tok.data t.data
  | MsgSeg.human t => substrCount tok.data t.data
  | MsgSeg.ai t => substrCount tok.data t.data

/-- Total occurrence count of a placeholder across a message list. -/
def placeholderCount (tok v : String) (msgs : List MsgSeg) : Nat :=
  (msgs.map (MsgSeg.tokenCount tok v)).sum

/-- A string containing no opening-brace character (true of every rendered
date string, which is why date substitution cannot create or destroy
placeholder tokens). -/
def hasNoBrace (s : String) : Bool :=
  s.data.all fun c => decide (c ≠ '\x7b')

theorem hasNoBrace_append (a b : String) (ha : hasNoBrace a = true)
    (hb : hasNoBrace b = true) : hasNoBrace (a ++ b) = true := by
  simp only [hasNoBrace, String.data_append, List.all_append, Bool.and_eq_true]
  exact ⟨ha, hb⟩

theorem substrCount_eq_zero_of_noBrace (pat s : List Char)
    (hpat : pat.head? = some '\x7b') (hs : ∀ c ∈ s, c ≠ '\x7b') :
    substrCount pat s = 0 := by
  induction s with
  | nil => rfl
  | cons c rest ih =>
    have hc : c ≠ '\x7b' := hs c (by simp)
    have hpre : pat.isPrefixOf (c :: rest) = false := by
      cases pat with
      | nil => simp at hpat
      | cons p ps =>
        simp only [List.head?_cons, Option.some.injEq] at hpat
        simp only [List.isPrefixOf, Bool.and_eq_false_iff]
        exact Or.inl (beq_eq_false_iff_ne.mpr fun heq => hc (heq ▸ hpat))
    simp only [substrCount, hpre, Bool.false_eq_true, if_false, Nat.zero_add]
    exact ih fun c' hc' => hs c' (by simp [hc'])

set_option maxHeartbeats 1000000 in
theorem hasNoBrace_defaultSystemText (today_date : String)
    (h : hasNoBrace today_date = true) :
    hasNoBrace (defaultSystemText today_date) = true := by
  unfold defaultSystemText
  repeat' apply hasNoBrace_append
  all_goals first | exact h | decide

theorem mem_ne_brace_of_hasNoBrace (s : String) (h : hasNoBrace s = true) :
    ∀ c ∈ s.data, c ≠ '\x7b' := by
  intro c hc
  have := List.all_eq_true.mp h c hc
  exact of_decide_eq_true this

/-- C7: the hardcoded default template contains the history placeholder, the
input placeholder and the working-memory placeholder exactly once each
(counting both MessagesPlaceholder segments and literal tokens in template
strings), with the history placeholder at position 1 preceding the input
message at position 2, and the working-memory placeholder as the last
segment.  The hypothesis says the rendered date contains no brace, which
holds of every weekday/month/day/year date string. -/
theorem create_default_prompt_placeholder_complete (today_date : String)
    (h : hasNoBrace today_date = true) :
    placeholderCount historyToken "chat_history"
        (create_default_weather_prompt today_date).messages = 1 ∧
    placeholderCount inputToken "input"
        (create_default_weather_prompt today_date).messages = 1 ∧
    placeholderCount scratchpadToken "agent_scratchpad"
        (create_default_weather_prompt today_date).messages = 1 ∧
    (create_default_weather_prompt today_date).messages[1]?
        = some (MsgSeg.placeholder "chat_history") ∧
    (create_default_weather_prompt today_date).messages[2]?
        = some (MsgSeg.human "{input}") ∧
    (create_default_weather_prompt today_date).messages.getLast?
        = some (MsgSeg.placeholder "agent_scratchpad") := by
  have hmem : ∀ c ∈ (defaultSystemText today_date).data, c ≠ '\x7b' :=
    mem_ne_brace_of_hasNoBrace _ (hasNoBrace_defaultSystemText today_date h)
  have h1 : substrCount historyToken.data (defaultSystemText today_date).data = 0 :=
    substrCount_eq_zero_of_noBrace _ _ (by decide) hmem
  have h2 : substrCount inputToken.data (defaultSystemText today_date).data = 0 :=
    substrCount_eq_zero_of_noBrace _ _ (by decide) hmem
  have h3 : substrCount scratchpadToken.data (defaultSystemText today_date).data = 0 :=
    substrCount_eq_zero_of_noBrace _ _ (by decide) hmem
  refine ⟨?_, ?_, ?_, rfl, rfl, rfl⟩
  · simp only [placeholderCount, create_default_weather_prompt, List.map_cons,
      List.map_nil, List.sum_cons, List.sum_nil, MsgSeg.tokenCount]
    rw [h1]
    decide
  · simp only [placeholderCount, create_default_weather_prompt, List.map_cons,
      List.map_nil, List.sum_cons, List.sum_nil, MsgSeg.tokenCount]
    rw [h2]
    decide
  · simp only [placeholderCount, create_default_weather_prompt, List.map_cons,
      List.map_nil, List.sum_cons, List.sum_nil, MsgSeg.tokenCount]
    rw [h3]
    decide

/-- Witness for the C7 theorem at a concrete rendered date. -/
theorem create_default_prompt_placeholder_complete_witness :
    placeholderCount historyToken "chat_history"
        (create_default_weather_prompt "Friday, January 03, 2025").messages = 1 ∧
    placeholderCount inputToken "input"
        (create_default_weather_prompt "Friday, January 03, 2025").messages = 1 ∧
    placeholderCount scratchpadToken "agent_scratchpad"
        (create_default_weather_prompt "Friday, January 03, 2025").messages = 1 ∧
    (create_default_weather_prompt "Friday, January 03, 2025").messages[1]?
        = some (MsgSeg.placeholder "chat_history") ∧
    (create_default_weather_prompt "Friday, January 03, 2025").messages[2]?
        = some (MsgSeg.human "{input}") ∧
    (create_default_weather_prompt "Friday, January 03, 2025").messages.getLast?
        = some (MsgSeg.placeholder "agent_scratchpad") :=
  create_default_prompt_placeholder_complete "Friday, January 03, 2025" (by decide)

theorem insertBeforeFirstHuman_take_drop (l : List MsgSeg) :
    (∀ i, firstHumanIdx l = some i →
        insertBeforeFirstHuman l
          = l.take i ++ MsgSeg.placeholder "chat_history" :: l.drop i) ∧
    (firstHumanIdx l = none → insertBeforeFirstHuman l = l) := by
  induction l with
  | nil =>
    exact ⟨fun i h => by simp [firstHumanIdx] at h, fun _ => rfl⟩
  | cons s rest ih =>
    constructor
    · intro i h
      by_cases hs : s.isHumanClass
      · simp only [firstHumanIdx, hs, if_true, Option.some.injEq] at h
        subst h
        simp [insertBeforeFirstHuman, hs]
      · simp only [firstHumanIdx, hs, Bool.false_eq_true, if_false,
          Option.map_eq_some'] at h
        obtain ⟨j, hj, rfl⟩ := h
        simp [insertBeforeFirstHuman, hs, ih.1 j hj, List.take_succ_cons,
          List.drop_succ_cons]
    · intro h
      by_cases hs : s.isHumanClass
      · simp [firstHumanIdx, hs] at h
      · simp only [firstHumanIdx, hs, Bool.false_eq_true, if_false,
          Option.map_eq_none'] at h
        simp [insertBeforeFirstHuman, hs, ih.2 h]

/-- C3 (amended): the repair pass of `get_prompt` detects the required
placeholders only as literal tokens inside string-template segments
(MessagesPlaceholder segments are invisible to the detection).  When both
tokens are detected the message list is returned with only date
substitution applied; when the scratchpad token is undetected exactly one
scratchpad MessagesPlaceholder is appended at the end; when the history
token is undetected exactly one history MessagesPlaceholder is inserted
immediately before the first Human/User segment if such a segment exists,
and no insertion happens when none does.  In particular the result can
contain a placeholder twice when the template already carried it as a
MessagesPlaceholder segment. -/
theorem get_prompt_repair_amended (today_date : String) (p : ChatPromptTemplate) :
    (p.messages.any (segMentions scratchpadToken) = true →
     p.messages.any (segMentions historyToken) = true →
     repairedMessages today_date p.messages
       = p.messages.map (substDate today_date)) ∧
    (p.messages.any (segMentions scratchpadToken) = false →
     repairedMessages today_date p.messages
       = (if p.messages.any (segMentions historyToken) then
            p.messages.map (substDate today_date)
          else insertBeforeFirstHuman (p.messages.map (substDate today_date)))
           ++ [MsgSeg.placeholder "agent_scratchpad"]) ∧
    (p.messages.any (segMentions scratchpadToken) = true →
     p.messages.any (segMentions historyToken) = false →
     repairedMessages today_date p.messages
       = insertBeforeFirstHuman (p.messages.map (substDate today_date))) ∧
    (∀ i, firstHumanIdx (p.messages.map (substDate today_date)) = some i →
        insertBeforeFirstHuman (p.messages.map (substDate today_date))
          = (p.messages.map (substDate today_date)).take i
              ++ MsgSeg.placeholder "chat_history"
                :: (p.messages.map (substDate today_date)).drop i) ∧
    (firstHumanIdx (p.messages.map (substDate today_date)) = none →
        insertBeforeFirstHuman (p.messages.map (substDate today_date))
          = p.messages.map (substDate today_date)) := by
  refine ⟨?_, ?_, ?_,
    (insertBeforeFirstHuman_take_drop _).1, (insertBeforeFirstHuman_take_drop _).2⟩
  · intro hS hH
    simp [repairedMessages, hS, hH]
  · intro hS
    by_cases hH : p.messages.any (segMentions historyToken)
    · simp [repairedMessages, hS, hH]
    · simp only [Bool.not_eq_true] at hH
      simp [repairedMessages, hS, hH]
  · intro hS hH
    simp [repairedMessages, hS, hH]

/-- Witness for the amended C3 theorem: a template consisting of a single
user message with neither token detected gets the history placeholder
inserted before it and the scratchpad placeholder appended. -/
theorem get_prompt_repair_amended_witness :
    repairedMessages "Monday, May 05, 2025" [MsgSeg.human "{input}"]
      = (if ([MsgSeg.human "{input}"] : List MsgSeg).any (segMentions historyToken) then
           ([MsgSeg.human "{input}"] : List MsgSeg).map (substDate "Monday, May 05, 2025")
         else insertBeforeFirstHuman
           (([MsgSeg.human "{input}"] : List MsgSeg).map (substDate "Monday, May 05, 2025")))
          ++ [MsgSeg.placeholder "agent_scratchpad"] :=
  (get_prompt_repair_amended "Monday, May 05, 2025"
      { messages := [MsgSeg.human "{input}"],
        input_variables := ["input"] }).2.1 (by decide)

/-- A cached template carrying its history and scratchpad placeholders as
MessagesPlaceholder segments (the shape `create_default_weather_prompt`
itself produces). -/
def c3Template : ChatPromptTemplate :=
  { messages :=
      [MsgSeg.placeholder "chat_history",
       MsgSeg.human "{input}",
       MsgSeg.placeholder "agent_scratchpad"],
    input_variables := ["chat_history", "input", "agent_scratchpad"] }

/-- The message list `get_prompt` returns for `c3Template`. -/
def c3RepairedMessages : List MsgSeg :=
  [MsgSeg.placeholder "chat_history",
   MsgSeg.placeholder "chat_history",
   MsgSeg.human "{input}",
   MsgSeg.placeholder "agent_scratchpad",
   MsgSeg.placeholder "agent_scratchpad"]

/-- C3 counterexample: for a cached template that already carries both
placeholders as MessagesPlaceholder segments, `get_prompt` fails to detect
them and inserts duplicates — the returned template contains the history
placeholder twice and the working-memory placeholder twice, not exactly
once each, and is not structurally unchanged. -/
theorem get_prompt_repair_counterexample :
    get_prompt "Friday, January 03, 2025" [("weather_agent", some c3Template)]
        "weather_agent"
      = some { messages := c3RepairedMessages,
               input_variables := ["chat_history", "input", "agent_scratchpad"] } ∧
    placeholderCount historyToken "chat_history" c3RepairedMessages = 2 ∧
    placeholderCount scratchpadToken "agent_scratchpad" c3RepairedMessages = 2 := by
  decide

theorem lookupEntry_insertEntry_self {α : Type} (cache : List (String × α))
    (key : String) (v : α) :
    lookupEntry (insertEntry cache key v) key = some v := by
  induction cache with
  | nil => simp [insertEntry, lookupEntry]
  | cons kv rest ih =>
    by_cases hk : kv.1 = key
    · simp [insertEntry, hk, lookupEntry]
    · simp [insertEntry, hk, lookupEntry, ih]

/-- C6: when the upstream pull raises, `update_prompt` returns False and the
cache — including the previously cached value for the ID — is exactly what
it was; when the pull succeeds, it returns True and the cached entry for
the ID is replaced by the pulled template. -/
theorem update_prompt_failure_preserves_cache
    (pull : Except String ChatPromptTemplate) (prompts : PromptsState)
    (prompt_id : String) :
    (∀ e, pull = Except.error e →
        update_prompt pull prompts prompt_id = (false, prompts)) ∧
    (∀ p, pull = Except.ok p →
        (update_prompt pull prompts prompt_id).1 = true ∧
        (update_prompt pull prompts prompt_id).2
          = insertEntry prompts prompt_id (some p) ∧
        lookupEntry (update_prompt pull prompts prompt_id).2 prompt_id
          = some (some p)) := by
  constructor
  · intro e he
    subst he
    rfl
  · intro p hp
    subst hp
    exact ⟨rfl, rfl, lookupEntry_insertEntry_self prompts prompt_id (some p)⟩

/-- Witness for the C6 theorem: a failing pull leaves a one-entry cache
untouched and reports failure; a succeeding pull replaces the entry and
reports success. -/
theorem update_prompt_failure_preserves_cache_witness :
    update_prompt (Except.error "pull failed") [("weather_agent", none)]
        "weather_agent"
      = (false, [("weather_agent", none)]) ∧
    lookupEntry (update_prompt (Except.ok c3Template) [("weather_agent", none)]
        "weather_agent").2 "weather_agent"
      = some (some c3Template) :=
  ⟨(update_prompt_failure_preserves_cache _ _ _).1 "pull failed" rfl,
   ((update_prompt_failure_preserves_cache _ _ _).2 c3Template rfl).2.2⟩

/-- C10: `get_prompt` never modifies the cache state — any number of get
calls leaves the `_prompts` dict identical, and every repair is
materialized only in the returned value. -/
theorem get_prompt_frame_preserves_cache (today_date : String)
    (prompt_ids : List String) (prompts : PromptsState) :
    runGets today_date prompt_ids prompts = prompts ∧
    ∀ prompt_id, get_prompt_state today_date prompts prompt_id
        = (get_prompt today_date prompts prompt_id, prompts) := by
  refine ⟨?_, fun _ => rfl⟩
  induction prompt_ids with
  | nil => rfl
  | cons pid rest ih =>
    simp only [runGets, List.foldl_cons, get_prompt_state] at ih ⊢
    exact ih

/-- One formatted message of the /chat-history response body. -/
structure ChatMessageOut where
  role : String
  content : String
deriving DecidableEq, Repr

/-- The response formatting of the history endpoint: role "user" when
`msg.type == "human"`, otherwise "assistant"; content verbatim. -/
def formatMessage (m : Message) : ChatMessageOut :=
  { role := if m.role = Role.human then "user" else "assistant",
    content := m.content }

/-- Default of the endpoint's `limit` query parameter (`Query(50, ...)`). -/
def chat_history_default_limit : Int := 50

/-- Python's `l[-n:]` for positive n: the last n elements (all of them when
n exceeds the length). -/
def lastN {α : Type} (l : List α) (n : Nat) : List α :=
  l.drop (l.length - n)

/-- Embedding of the GET /chat-history endpoint body (app.py): format the
retrieved history, then apply the cap only when `limit and limit > 0` is
truthy — a zero limit is falsy and a negative limit fails the comparison,
so both skip the cap. -/
def get_chat_history_endpoint (history : List Message) (limit : Int) :
    List ChatMessageOut :=
  let messages := history.map formatMessage
  if limit ≠ 0 ∧ limit > 0 then lastN messages limit.toNat else messages

/-- C9: with a positive limit the endpoint returns exactly the last
min(N, limit) formatted messages in order; with a zero or negative limit
the cap is skipped and all N messages are returned; the default limit
is 50. -/
theorem get_chat_history_limit_behavior (history : List Message) (limit : Int) :
    (0 < limit →
        get_chat_history_endpoint history limit
          = lastN (history.map formatMessage) limit.toNat ∧
        (get_chat_history_endpoint history limit).length
          = min history.length limit.toNat) ∧
    (limit ≤ 0 →
        get_chat_history_endpoint history limit = history.map formatMessage) ∧
    chat_history_default_limit = 50 := by
  refine ⟨?_, ?_, rfl⟩
  · intro hpos
    have hcond : limit ≠ 0 ∧ limit > 0 := ⟨by omega, hpos⟩
    constructor
    · simp [get_chat_history_endpoint, hcond]
    · simp only [get_chat_history_endpoint, if_pos hcond, lastN,
        List.length_drop, List.length_map]
      omega
  · intro hneg
    have hcond : ¬(limit ≠ 0 ∧ limit > 0) := by omega
    simp [get_chat_history_endpoint, hcond]

/-- Witness for the C9 theorem: a three-message history with limit 2 yields
the last two formatted messages, and with limit -1 all three. -/
theorem get_chat_history_limit_behavior_witness :
    get_chat_history_endpoint
        [{ role := Role.human, content := "a" },
         { role := Role.ai, content := "b" },
         { role := Role.human, content := "c" }] 2
      = lastN (([{ role := Role.human, content := "a" },
          { role := Role.ai, content := "b" },
          { role := Role.human, content := "c" }] : List Message).map formatMessage)
          ((2 : Int)).toNat ∧
    get_chat_history_endpoint
        [{ role := Role.human, content := "a" },
         { role := Role.ai, content := "b" },
         { role := Role.human, content := "c" }] (-1)
      = ([{ role := Role.human, content := "a" },
          { role := Role.ai, content := "b" },
          { role := Role.human, content := "c" }] : List Message).map formatMessage :=
  ⟨((get_chat_history_limit_behavior
      [{ role := Role.human, content := "a" },
       { role := Role.ai, content := "b" },
       { role := Role.human, content := "c" }] 2).1 (by decide)).1,
   (get_chat_history_limit_behavior
      [{ role := Role.human, content := "a" },
       { role := Role.ai, content := "b" },
       { role := Role.human, content := "c" }] (-1)).2.1 (by decide)⟩

/-- Outcome of the DELETE /users/{username} endpoint. -/
inductive DeleteUserResult where
  | success (username : String)
  | forbidden
  | notFound
deriving DecidableEq, Repr

/-- Membership test backing `UserManager.delete_user`'s deleted-count check
(the users collection holds at most one document per username). -/
def memberStr : List String → String → Bool
  | [], _ => false
  | u :: rest, x => if u = x then true else memberStr rest x

/-- Mongo `delete_one`: removes the first (under the unique index, only)
document for the username; a no-op when absent. -/
def deleteOneStr : List String → String → List String
  | [], _ => []
  | u :: rest, x => if u = x then rest else u :: deleteOneStr rest x

/-- Process state visible to the delete-user endpoint: the user store, the
agent session cache and the per-session conversation store. -/
structure AppState (α : Type) where
  users : List String
  agent_cache : List (String × α)
  chat_store : List (String × List Message)
deriving Repr

/-- The try-block cleanup of `delete_user` (app.py): `get_agent` (which may
construct and cache a fresh pair, or raise), then `memory.clear_history()`
(which may raise), then eviction from the agent cache.  Any exception is
swallowed by `except Exception: pass`, leaving the state exactly as it was
at the failure point. -/
def delete_user_cleanup {α : Type} (create : Except String α)
    (clear_raises : Bool) (cache : List (String × α))
    (store : List (String × List Message)) (username : String) :
    List (String × α) × List (String × List Message) :=
  match get_agent create cache username with
  | (Except.error _, c1) => (c1, store)
  | (Except.ok _, c1) =>
      if clear_raises then (c1, store)
      else (eraseEntry c1 username, eraseEntry store username)

/-- Embedding of the DELETE /users/{username} endpoint body (app.py):
reject mismatched users with 403; otherwise run `delete_user` on the user
store and, when it deleted the account, perform best-effort cleanup and
return success regardless of the cleanup outcome; 404 when the user did
not exist. -/
def delete_user_endpoint {α : Type} (create : Except String α)
    (clear_raises : Bool) (st : AppState α) (current_user username : String) :
    DeleteUserResult × AppState α :=
  if current_user ≠ username then (DeleteUserResult.forbidden, st)
  else if memberStr st.users username then
    let cleaned := delete_user_cleanup create clear_raises st.agent_cache
        st.chat_store username
    (DeleteUserResult.success username,
     { users := deleteOneStr st.users username,
       agent_cache := cleaned.1, chat_store := cleaned.2 })
  else (DeleteUserResult.notFound,
        { st with users := deleteOneStr st.users username })

/-- C8: for every existing user, deleting one's own account returns the
success response for every behaviour of the cleanup steps — a failing agent
construction or a failing history clear is swallowed and never turns the
deletion into a failure — and the account is removed from the user store. -/
theorem delete_user_succeeds_despite_cleanup_failure {α : Type}
    (create : Except String α) (clear_raises : Bool) (st : AppState α)
    (username : String) (h : memberStr st.users username = true) :
    (delete_user_endpoint create clear_raises st username username).1
      = DeleteUserResult.success username ∧
    (delete_user_endpoint create clear_raises st username username).2.users
      = deleteOneStr st.users username := by
  simp [delete_user_endpoint, h]

/-- Witness for the C8 theorem: deleting an existing user succeeds even
when agent construction raises and the history clear raises. -/
theorem delete_user_succeeds_despite_cleanup_failure_witness :
    (delete_user_endpoint (Except.error "construction failed" : Except String Nat)
        true { users := ["dave"], agent_cache := [], chat_store := [] }
        "dave" "dave").1
      = DeleteUserResult.success "dave" :=
  (delete_user_succeeds_despite_cleanup_failure
      (Except.error "construction failed") true
      { users := ["dave"], agent_cache := [], chat_store := [] }
      "dave" (by decide)).1

end WeatherAgent
